import Mathlib

/-!
Verification of the RP2040 shared-USB composite-descriptor subsystem
(`cores/rp2040/RP2040USB.cpp` / `RP2040USB.h`).

The C++ source is shallowly embedded: the link-time role-enable symbols
(`__USBInstallSerial`, `__USBInstallKeyboard`, ...) become a record of
booleans; the global descriptor buffers become explicit values threaded
through the build functions; `malloc` success is an explicit boolean input;
byte buffers are `List Nat`.  The fixed-size sub-descriptor templates
produced by external TinyUSB macros (`TUD_CDC_DESCRIPTOR`, etc.) are
external collaborators, so they enter the model as parameters; the source
pins each local array's extent to the corresponding `TUD_*_DESC_LEN`
constant, which the theorems record as length hypotheses.
-/

namespace RP2040USB

/-- The link-time role-enable flags: presence of each weakly-defined
`__USBInstall*` symbol in the C source. -/
structure RoleFlags where
  serial : Bool
  keyboard : Bool
  mouse : Bool
  joystick : Bool
  consumerControl : Bool
  massStorage : Bool
  rawHID2 : Bool
deriving DecidableEq, Repr

/-- Source `hasHID` in `__SetupUSBDescriptor`: keyboard, mouse or joystick installed
(consumer control does not participate in this flag in the source). -/
def hasHID (f : RoleFlags) : Bool :=
  f.keyboard || f.mouse || f.joystick

/-- Source: `int __USBGetKeyboardReportID() \x7b return 1; \x7d` -/
def __USBGetKeyboardReportID (_f : RoleFlags) : Nat := 1

/-- Source: `return 1 + (__USBInstallKeyboard ? 1 : 0);` -/
def __USBGetMouseReportID (f : RoleFlags) : Nat :=
  1 + (if f.keyboard then 1 else 0)

/-- Source: `return 1 + (__USBInstallKeyboard ? 1 : 0) + (__USBInstallMouse ? 1 : 0);` -/
def __USBGetJoystickReportID (f : RoleFlags) : Nat :=
  1 + (if f.keyboard then 1 else 0) + (if f.mouse then 1 else 0)

/-- Source: `return 1 + (kbd ? 1 : 0) + (mouse ? 1 : 0) + (joystick ? 1 : 0);` -/
def __USBGetConsumerControlReportID (f : RoleFlags) : Nat :=
  1 + (if f.keyboard then 1 else 0) + (if f.mouse then 1 else 0) +
    (if f.joystick then 1 else 0)

/-- Embeds `__USBGetHIDInstanceIndexForSharedHID`: `hasSerial ? 0 : -1`, where
`hasSerial = __USBInstallSerial` (only the serial flag is consulted). -/
def __USBGetHIDInstanceIndexForSharedHID (f : RoleFlags) : Int :=
  if f.serial then 0 else -1

/-- Embeds `__USBGetHIDInstanceIndexForRawHID`: instance 1 when both the shared
keyboard/mouse/joystick HID interface and the raw-HID-2 interface exist,
0 when only raw-HID-2 exists, -1 otherwise. -/
def __USBGetHIDInstanceIndexForRawHID (f : RoleFlags) : Int :=
  let h := hasHID f
  let h2 := f.rawHID2
  if h && h2 then 1 else if h2 then 0 else -1

/-- Count of `true` entries, used to phrase "number of enabled roles
strictly preceding a role in precedence order". -/
def enabledCount (l : List Bool) : Nat :=
  (l.filter id).length

/-! ### Device descriptor (product-ID derivation) -/

/-- Default PID `USBD_PID` (Raspberry Pi Pico SDK CDC, no `SERIALUSB_PID`
override macro). -/
def USBD_PID : Nat := 0x000a

/-- Default VID `USBD_VID` (Raspberry Pi). -/
def USBD_VID : Nat := 0x2E8A

/-- The identity fields of `__USBDeviceAttributes` a device-descriptor
request reads. -/
structure DeviceIds where
  vendorId : Nat
  productId : Nat
deriving DecidableEq, Repr

/-- The (vendorId, productId) pair `tud_descriptor_device_cb` places into
the returned device descriptor: the PID is perturbed per enabled role, but
only when the configured PID still equals the default `USBD_PID`. -/
def tud_descriptor_device_cb (attrs : DeviceIds) (f : RoleFlags) : Nat × Nat :=
  let pid0 := attrs.productId
  if pid0 = USBD_PID then
    let pid1 := if f.keyboard then pid0 ||| 0x8000 else pid0
    let pid2 := if f.mouse then pid1 ||| 0x4000 else pid1
    let pid3 := if f.joystick then pid2 ||| 0x0100 else pid2
    let pid4 := if f.massStorage then pid3 ^^^ 0x2000 else pid3
    let pid5 := if f.rawHID2 then pid4 ^^^ 0x1000 else pid4
    (attrs.vendorId, pid5)
  else
    (attrs.vendorId, pid0)

/-! ### Byte-buffer primitives

`listWrite buf off src` is `memcpy(buf + off, src, src.length)`;
`writeSeq buf off segs` is a run of consecutive `memcpy`s with the write
pointer advanced by each segment's length, as in the source's
`memcpy(ptr, d, sizeof(d)); ptr += sizeof(d);` sequences (each local
descriptor array's `sizeof` is its list length here). -/

def listWrite (buf : List Nat) (off : Nat) (src : List Nat) : List Nat :=
  buf.take off ++ src ++ buf.drop (off + src.length)

def writeSeq (buf : List Nat) (off : Nat) : List (List Nat) → List Nat
  | [] => buf
  | s :: rest => writeSeq (listWrite buf off s) (off + s.length) rest

theorem listWrite_append (pre suf s : List Nat) :
    listWrite (pre ++ suf) pre.length s = (pre ++ s) ++ suf.drop s.length := by
  unfold listWrite
  rw [List.take_left]
  have hdrop : (pre ++ suf).drop (pre.length + s.length) = suf.drop s.length := by
    induction pre with
    | nil => simp
    | cons a t _ => simp [Nat.succ_add]
  rw [hdrop, List.append_assoc]

theorem writeSeq_join (segs : List (List Nat)) :
    ∀ pre suf : List Nat,
      writeSeq (pre ++ suf) pre.length segs =
        pre ++ segs.flatten ++ suf.drop segs.flatten.length := by
  induction segs with
  | nil => intro pre suf; simp [writeSeq]
  | cons s rest ih =>
    intro pre suf
    have h1 : writeSeq (pre ++ suf) pre.length (s :: rest) =
        writeSeq ((pre ++ s) ++ suf.drop s.length) (pre ++ s).length rest := by
      simp [writeSeq, listWrite_append]
    rw [h1, ih (pre ++ s) (suf.drop s.length)]
    simp [List.append_assoc, List.drop_drop, Nat.add_comm]

theorem writeSeq_tiles (segs : List (List Nat)) :
    writeSeq (List.replicate segs.flatten.length 0) 0 segs = segs.flatten := by
  have h := writeSeq_join segs [] (List.replicate segs.flatten.length 0)
  simpa using h

/-! ### HID report descriptor builder (`__SetupDescHIDReport`) -/

/-- The `Report_Type_*` enumeration. -/
inductive ReportType
  | keyboard
  | mouse
  | joystick
  | consumerControl
deriving DecidableEq, Repr

/-- The four fixed report-descriptor templates, each parameterized by the
report ID stamped into it (`TUD_HID_REPORT_DESC_KEYBOARD(HID_REPORT_ID(id))`
and friends — external TinyUSB macros, hence parameters of the model). -/
structure HIDTemplates where
  keyboard : Nat → List Nat
  mouse : Nat → List Nat
  joystick : Nat → List Nat
  consumerControl : Nat → List Nat

/-- Dispatch on a report type, selecting the matching template.  The final
branch of the source's copy loop tests the constant
`Report_Type_ConsumerControl` (nonzero, so always true) instead of
`report_type == Report_Type_ConsumerControl`; since the `report_types`
array only holds the four enumerators and the first three are matched
explicitly, that branch executes exactly when the entry is
consumer-control, which this dispatch reproduces. -/
def templateFor (t : HIDTemplates) : ReportType → Nat → List Nat
  | .keyboard => t.keyboard
  | .mouse => t.mouse
  | .joystick => t.joystick
  | .consumerControl => t.consumerControl

/-- The `report_types` array filled at the top of `__SetupDescHIDReport`:
enabled simple-HID roles in precedence order. -/
def report_types (f : RoleFlags) : List ReportType :=
  (if f.keyboard then [ReportType.keyboard] else []) ++
  (if f.mouse then [ReportType.mouse] else []) ++
  (if f.joystick then [ReportType.joystick] else []) ++
  (if f.consumerControl then [ReportType.consumerControl] else [])

/-- The first sizing loop: sums the sizes of the ID-1-stamped templates of
the listed report types. -/
def hidReportSize (t : HIDTemplates) (rts : List ReportType) : Nat :=
  (rts.map (fun rt => (templateFor t rt 1).length)).sum

/-- The copy loop's segments: the `i`-th listed report type's template
stamped with `report_id = i + 1`. -/
def hidCopySegs (t : HIDTemplates) : List ReportType → Nat → List (List Nat)
  | [], _ => []
  | rt :: rest, i => templateFor t rt (i + 1) :: hidCopySegs t rest (i + 1)

/-- Embeds `__SetupDescHIDReport`, returning the pair
(`__hid_report`, `__hid_report_len`).  `allocOk` models the success of the
single `malloc`; on failure the source skips the copy loop and the length
assignment, leaving the null pointer and length 0. -/
def __SetupDescHIDReport (f : RoleFlags) (t : HIDTemplates) (allocOk : Bool) :
    Option (List Nat) × Nat :=
  let rts := report_types f
  if rts.length = 0 then
    (none, 0)
  else
    let size := hidReportSize t rts
    if allocOk then
      (some (writeSeq (List.replicate size 0) 0 (hidCopySegs t rts 0)), size)
    else
      (none, 0)

/-- Result of `__SetupDescHID2Report`: the pair
(`__hid2_report`, `__hid2_report_len`) plus a flag recording whether the
unchecked `memcpy(__hid2_report, ...)` was performed with a null
destination (the source has no null check on this `malloc`). -/
structure HID2BuildResult where
  buf : Option (List Nat)
  len : Nat
  nullWrite : Bool
deriving DecidableEq, Repr

/-- Embeds `__SetupDescHID2Report`.  `tmpl` is the external
`TUD_HID_REPORT_DESC_GENERIC_INOUT(64)` template; `allocOk` models the
`malloc` outcome.  The source performs `memcpy` and the length assignment
unconditionally after the `malloc`, with no null check. -/
def __SetupDescHID2Report (f : RoleFlags) (tmpl : List Nat) (allocOk : Bool) :
    HID2BuildResult :=
  if f.rawHID2 then
    let size := tmpl.length
    if allocOk then
      { buf := some (listWrite (List.replicate size 0) 0 tmpl)
        len := size
        nullWrite := false }
    else
      { buf := none, len := size, nullWrite := true }
  else
    { buf := none, len := 0, nullWrite := false }

/-! ### Configuration descriptor builder (`__SetupUSBDescriptor`) -/

/-- Fixed sub-descriptor extents from the TinyUSB headers; the source
declares each local descriptor array with exactly this extent and all size
arithmetic uses `sizeof` of those arrays. -/
def TUD_CONFIG_DESC_LEN : Nat := 9

def TUD_CDC_DESC_LEN : Nat := 66

def TUD_HID_DESC_LEN : Nat := 25

def TUD_MSC_DESC_LEN : Nat := 23

def TUD_HID_INOUT_DESC_LEN : Nat := 32

/-- The interface numbers computed at the top of `__SetupUSBDescriptor`.
Each `itf_*` is a `uint8_t` initialized to `-1`, i.e. 255, and overwritten
from the running `itf_pos` when its group is enabled. -/
structure ItfLayout where
  itf_cdc : Nat
  itf_hid : Nat
  itf_msd : Nat
  itf_hid2 : Nat
  interface_count : Nat
deriving DecidableEq, Repr

def computeItfLayout (f : RoleFlags) : ItfLayout :=
  let p0 := 0
  let (itf_cdc, p1) := if f.serial then (p0, p0 + 2) else (255, p0)
  let (itf_hid, p2) := if hasHID f then (p1, p1 + 1) else (255, p1)
  let (itf_msd, p3) := if f.massStorage then (p2, p2 + 1) else (255, p2)
  let (itf_hid2, p4) := if f.rawHID2 then (p3, p3 + 1) else (255, p3)
  { itf_cdc := itf_cdc, itf_hid := itf_hid, itf_msd := itf_msd,
    itf_hid2 := itf_hid2, interface_count := p4 }

/-- Source `usbd_desc_len`: config-header size plus each enabled group's fixed
sub-descriptor size (`sizeof` of the local arrays). -/
def usbd_desc_len (f : RoleFlags) : Nat :=
  TUD_CONFIG_DESC_LEN + (if f.serial then TUD_CDC_DESC_LEN else 0) +
    (if hasHID f then TUD_HID_DESC_LEN else 0) +
    (if f.massStorage then TUD_MSC_DESC_LEN else 0) +
    (if f.rawHID2 then TUD_HID_INOUT_DESC_LEN else 0)

/-- The external TinyUSB descriptor macros used by `__SetupUSBDescriptor`,
as parameters of the model.  `cfgHeader` is `TUD_CONFIG_DESCRIPTOR` applied
to the interface count and total length (its remaining arguments are
constants); `cdc`, `msd` take their interface number; `hid`, `hid2` take
their interface number and report-descriptor length (the other macro
arguments are constants). -/
structure CfgTemplates where
  cfgHeader : Nat → Nat → List Nat
  cdc : Nat → List Nat
  hid : Nat → Nat → List Nat
  msd : Nat → List Nat
  hid2 : Nat → Nat → List Nat

/-- The `memcpy` run of `__SetupUSBDescriptor`: the config header followed
by each enabled group's sub-descriptor, in precedence order.  (The source
also materializes the disabled groups' arrays with interface number 255;
those are never copied, so they do not appear here.) -/
def cfgSegs (f : RoleFlags) (t : CfgTemplates) (hidLen hid2Len : Nat) :
    List (List Nat) :=
  let L := computeItfLayout f
  t.cfgHeader L.interface_count (usbd_desc_len f) ::
    ((if f.serial then [t.cdc L.itf_cdc] else []) ++
     (if hasHID f then [t.hid L.itf_hid hidLen] else []) ++
     (if f.massStorage then [t.msd L.itf_msd] else []) ++
     (if f.rawHID2 then [t.hid2 L.itf_hid2 hid2Len] else []))

/-- Embeds `__SetupUSBDescriptor`, as a transformer of the global `usbd_desc_cfg`
pointer.  If the pointer is already non-null the whole body is skipped.
Otherwise one buffer of `usbd_desc_len` bytes is allocated (`allocOk`
models the `malloc` outcome), zero-filled (`bzero`), and the header and
enabled sub-descriptors are copied in sequence; on allocation failure
nothing is written and the pointer stays null.  `hidLen` / `hid2Len` are
the values read from `__hid_report_len` / `__hid2_report_len` via
`GetDescHIDReport` / `GetDescHID2Report`. -/
def __SetupUSBDescriptor (prev : Option (List Nat)) (f : RoleFlags)
    (t : CfgTemplates) (hidLen hid2Len : Nat) (allocOk : Bool) :
    Option (List Nat) :=
  match prev with
  | some b => some b
  | none =>
    if allocOk then
      some (writeSeq (List.replicate (usbd_desc_len f) 0) 0
        (cfgSegs f t hidLen hid2Len))
    else
      none

/-! ### String descriptors (`tud_descriptor_string_cb`) -/

/-- Source `DESC_STR_MAX`: capacity of the static `uint16_t desc_str[20]`; at most
`DESC_STR_MAX - 1 = 19` characters of a string are copied. -/
def DESC_STR_MAX : Nat := 20

/-- The `TUSB_DESC_STRING` descriptor-type code. -/
def TUSB_DESC_STRING : Nat := 3

/-- The string fields of `__USBDeviceAttributes`, as character-code lists
(C strings without interior NULs). -/
structure StringAttrs where
  manufacturerName : List Nat
  productName : List Nat
  serialNumberText : List Nat
deriving DecidableEq, Repr

/-- The fixed `"Board CDC"` label at `USBD_STR_CDC`. -/
def BOARD_CDC : List Nat :=
  ("Board CDC".toList).map Char.toNat

/-- The static `idString` buffer as observed by a lookup:
`snprintf(idString, 17, serialNumberText)` copies at most 16 characters
(`PICO_UNIQUE_BOARD_ID_SIZE_BYTES * 2 = 16` plus the terminator); when the
result is empty, `pico_get_unique_board_id_string` fills it with the
16-hex-character board ID (`uniqueId`, an external input). -/
def idString (attrs : StringAttrs) (uniqueId : List Nat) : List Nat :=
  let s := attrs.serialNumberText.take 16
  if s = [] then uniqueId.take 16 else s

/-- The `usbd_desc_str` table: index 0 the empty string, then manufacturer,
product, serial (`idString`), and the CDC label.  The table has exactly 5
entries; this function is only consulted for indices 1..4. -/
def usbd_desc_str (attrs : StringAttrs) (uniqueId : List Nat) : Nat → List Nat
  | 1 => attrs.manufacturerName
  | 2 => attrs.productName
  | 3 => idString attrs uniqueId
  | 4 => BOARD_CDC
  | _ => []

/-- Embeds `tud_descriptor_string_cb` (the `langid` argument is ignored by the
source).  The returned buffer is modeled as header word followed by the
16-bit payload units: index 0 yields the single language code 0x0409;
an index at or past the 5-entry table yields null; otherwise up to
`DESC_STR_MAX - 1` characters of the table entry are widened into the
payload.  The header word is `(TUSB_DESC_STRING << 8) | (2 * len + 2)`. -/
def tud_descriptor_string_cb (attrs : StringAttrs) (uniqueId : List Nat)
    (index : Nat) : Option (List Nat) :=
  if index = 0 then
    some (((TUSB_DESC_STRING <<< 8) ||| (2 * 1 + 2)) :: [0x0409])
  else if 5 ≤ index then
    none
  else
    let payload := (usbd_desc_str attrs uniqueId index).take (DESC_STR_MAX - 1)
    some (((TUSB_DESC_STRING <<< 8) ||| (2 * payload.length + 2)) :: payload)

/-! ### Controller task dispatch (`usb_irq` and the `__usb_mutex`) -/

/-- The state shared between the USB interrupt and inline application
contexts: the owner of `__usb_mutex` (`none` = free) and a counter of
completed `tud_task()` calls standing for the stack's internal progress. -/
structure USBState where
  mutexOwner : Option Nat
  tudTaskRuns : Nat
deriving DecidableEq, Repr

/-- Embeds `mutex_try_enter`: succeeds and takes ownership exactly when the mutex
is free; otherwise returns false leaving the state untouched. -/
def mutex_try_enter (s : USBState) (c : Nat) : Bool × USBState :=
  match s.mutexOwner with
  | none => (true, { s with mutexOwner := some c })
  | some _ => (false, s)

/-- Embeds `mutex_exit`. -/
def mutex_exit (s : USBState) : USBState :=
  { s with mutexOwner := none }

/-- Embeds `tud_task()`: the external stack's processing entry point, modeled as
one unit of stack progress. -/
def tud_task (s : USBState) : USBState :=
  { s with tudTaskRuns := s.tudTaskRuns + 1 }

/-- Outcome of one `usb_irq` firing: the final state and, for each
`tud_task()` call performed, the mutex owner at the moment of the call. -/
structure IrqOutcome where
  final : USBState
  taskCallOwners : List (Option Nat)
deriving DecidableEq, Repr

/-- Embeds `usb_irq` executing in context `c`: non-blocking try-acquire of
`__usb_mutex`; on success run `tud_task()` and release; on contention do
nothing and return. -/
def usb_irq (s : USBState) (c : Nat) : IrqOutcome :=
  let r := mutex_try_enter s c
  if r.1 then
    { final := mutex_exit (tud_task r.2)
      taskCallOwners := [r.2.mutexOwner] }
  else
    { final := r.2, taskCallOwners := [] }

/-! ### Set-report callback router -/

/-- The argument tuple of a set-report event, forwarded verbatim. -/
structure SetReportArgs where
  instanceId : Nat
  reportId : Nat
  reportType : Nat
  buffer : List Nat
  bufsize : Nat
deriving DecidableEq, Repr

/-- The globals `__hid_set_report_callback_functions[2]` (slots start as
null function pointers) and `__hid_set_report_callback_functions_count`. -/
structure CallbackState (F : Type) where
  slot0 : Option F
  slot1 : Option F
  count : Nat
deriving DecidableEq, Repr

def initialCallbackState (F : Type) : CallbackState F :=
  { slot0 := none, slot1 := none, count := 0 }

/-- Embeds `__USBSubscribeHIDSetReportCallback`: store at index `count` and
increment while `count < 2`; otherwise do nothing. -/
def __USBSubscribeHIDSetReportCallback {F : Type} (s : CallbackState F)
    (fn : F) : CallbackState F :=
  if s.count < 2 then
    if s.count = 0 then
      { s with slot0 := some fn, count := s.count + 1 }
    else
      { s with slot1 := some fn, count := s.count + 1 }
  else
    s

/-- Embeds `tud_hid_set_report_cb`: walk both slots in order and invoke every
non-null handler with the event arguments unchanged.  The result is the
list of performed invocations (handler paired with the arguments it
received); the C handlers return `void`, so the invocation list is the
whole observable behaviour. -/
def tud_hid_set_report_cb {F : Type} (s : CallbackState F)
    (args : SetReportArgs) : List (F × SetReportArgs) :=
  (match s.slot0 with | some f => [(f, args)] | none => []) ++
  (match s.slot1 with | some f => [(f, args)] | none => [])

/-- Register a list of handlers in order, starting from the initial
(empty) state. -/
def registerAll {F : Type} (fs : List F) : CallbackState F :=
  fs.foldl __USBSubscribeHIDSetReportCallback (initialCallbackState F)

/-! ## Theorems -/

/-- C10: each report-ID accessor returns 1 plus the number of enabled roles
strictly preceding it in the precedence order keyboard, mouse, joystick,
consumer-control, whether or not its own role is enabled; the keyboard
accessor always returns 1; no accessor returns an "absent" value (all are
at least 1); and each accessor is insensitive to its own role's flag, so a
disabled role's accessor returns the ID the role would get if enabled. -/
theorem reportID_accessor_spec (f : RoleFlags) :
    __USBGetKeyboardReportID f = 1 ∧
    __USBGetMouseReportID f = 1 + enabledCount [f.keyboard] ∧
    __USBGetJoystickReportID f = 1 + enabledCount [f.keyboard, f.mouse] ∧
    __USBGetConsumerControlReportID f =
      1 + enabledCount [f.keyboard, f.mouse, f.joystick] ∧
    (1 ≤ __USBGetKeyboardReportID f ∧ 1 ≤ __USBGetMouseReportID f ∧
     1 ≤ __USBGetJoystickReportID f ∧ 1 ≤ __USBGetConsumerControlReportID f) ∧
    (∀ b : Bool,
      __USBGetKeyboardReportID { f with keyboard := b } =
        __USBGetKeyboardReportID { f with keyboard := true } ∧
      __USBGetMouseReportID { f with mouse := b } =
        __USBGetMouseReportID { f with mouse := true } ∧
      __USBGetJoystickReportID { f with joystick := b } =
        __USBGetJoystickReportID { f with joystick := true } ∧
      __USBGetConsumerControlReportID { f with consumerControl := b } =
        __USBGetConsumerControlReportID { f with consumerControl := true }) := by
  obtain ⟨s, k, m, j, cc, ms, r2⟩ := f
  cases k <;> cases m <;> cases j <;>
    simp [__USBGetKeyboardReportID, __USBGetMouseReportID,
      __USBGetJoystickReportID, __USBGetConsumerControlReportID, enabledCount]

/-- Flags with only consumer-control and raw-HID-2 enabled: a simple-HID
role is present without serial, and the raw group is present while the
keyboard/mouse/joystick HID interface is not. -/
def ccRawFlags : RoleFlags :=
  { serial := false, keyboard := false, mouse := false, joystick := false,
    consumerControl := true, massStorage := false, rawHID2 := true }

/-- C4 counterexample: with only consumer-control and raw-HID-2 enabled,
the claim demands shared-group instance 0 (a simple-HID role is present)
and raw-group instance 1 (both groups present); the code returns -1 for
the shared group (it checks only the serial flag) and 0 for the raw group
(its "shared present" test is keyboard/mouse/joystick only). -/
theorem hidInstanceIndex_claim_counterexample :
    ¬ (__USBGetHIDInstanceIndexForSharedHID ccRawFlags = 0 ∧
       __USBGetHIDInstanceIndexForRawHID ccRawFlags = 1) := by
  decide

/-- C4 (amended): the shared simple-HID group's instance index is 0 exactly
when serial is installed, else -1; the raw-HID-2 group's instance index is
1 when both the keyboard/mouse/joystick HID interface and the raw
interface exist, 0 when only the raw interface exists, and -1 when the raw
role is absent. -/
theorem hidInstanceIndex_spec (f : RoleFlags) :
    (f.serial = true → __USBGetHIDInstanceIndexForSharedHID f = 0) ∧
    (f.serial = false → __USBGetHIDInstanceIndexForSharedHID f = -1) ∧
    (hasHID f = true → f.rawHID2 = true →
      __USBGetHIDInstanceIndexForRawHID f = 1) ∧
    (hasHID f = false → f.rawHID2 = true →
      __USBGetHIDInstanceIndexForRawHID f = 0) ∧
    (f.rawHID2 = false → __USBGetHIDInstanceIndexForRawHID f = -1) := by
  refine ⟨?_, ?_, ?_, ?_, ?_⟩ <;> intro h <;>
    simp_all [__USBGetHIDInstanceIndexForSharedHID,
      __USBGetHIDInstanceIndexForRawHID]

/-- Witness for `hidInstanceIndex_spec` at serial+keyboard+raw flags. -/
theorem hidInstanceIndex_spec_witness :
    __USBGetHIDInstanceIndexForSharedHID
        ⟨true, true, false, false, false, false, true⟩ = 0 ∧
    __USBGetHIDInstanceIndexForRawHID
        ⟨true, true, false, false, false, false, true⟩ = 1 :=
  ⟨(hidInstanceIndex_spec _).1 rfl, (hidInstanceIndex_spec _).2.2.1 rfl rfl⟩

/-- C5: the device descriptor carries the configured vendor ID; a product
ID overridden away from the default passes through unchanged; when the
product ID equals the default, keyboard ORs in 0x8000, mouse ORs in
0x4000, joystick ORs in 0x0100, mass storage XORs in 0x2000 and raw-HID-2
XORs in 0x1000; in particular with the default base and exactly
keyboard+mouse enabled the result is the base OR 0x8000 OR 0x4000. -/
theorem device_cb_pid_spec (attrs : DeviceIds) (f : RoleFlags) :
    (tud_descriptor_device_cb attrs f).1 = attrs.vendorId ∧
    (attrs.productId ≠ USBD_PID →
      (tud_descriptor_device_cb attrs f).2 = attrs.productId) ∧
    (attrs.productId = USBD_PID →
      (tud_descriptor_device_cb attrs f).2 =
        ((((USBD_PID ||| (if f.keyboard then 0x8000 else 0)) |||
          (if f.mouse then 0x4000 else 0)) |||
          (if f.joystick then 0x0100 else 0)) ^^^
          (if f.massStorage then 0x2000 else 0)) ^^^
          (if f.rawHID2 then 0x1000 else 0)) ∧
    (attrs.productId = USBD_PID → f.keyboard = true → f.mouse = true →
      f.joystick = false → f.massStorage = false → f.rawHID2 = false →
      (tud_descriptor_device_cb attrs f).2 = USBD_PID ||| 0x8000 ||| 0x4000) := by
  obtain ⟨v, p⟩ := attrs
  obtain ⟨s, k, m, j, cc, ms, r2⟩ := f
  refine ⟨?_, ?_, ?_, ?_⟩
  · by_cases hp : p = USBD_PID <;> simp [tud_descriptor_device_cb, hp]
  · intro hp; simp [tud_descriptor_device_cb, hp]
  · intro hp
    simp only at hp
    subst hp
    cases k <;> cases m <;> cases j <;> cases ms <;> cases r2 <;>
      norm_num [tud_descriptor_device_cb, USBD_PID]
  · intro hp hk hm hj hms hr2
    simp only at hp hk hm hj hms hr2
    subst hp; subst hk; subst hm; subst hj; subst hms; subst hr2
    norm_num [tud_descriptor_device_cb, USBD_PID]

/-- Witness for `device_cb_pid_spec`: default VID/PID with keyboard+mouse. -/
theorem device_cb_pid_spec_witness :
    (tud_descriptor_device_cb ⟨0x2E8A, 0x000a⟩
        ⟨false, true, true, false, false, false, false⟩).2 =
      USBD_PID ||| 0x8000 ||| 0x4000 :=
  (device_cb_pid_spec ⟨0x2E8A, 0x000a⟩
    ⟨false, true, true, false, false, false, false⟩).2.2.2
    rfl rfl rfl rfl rfl rfl

/-- C6: the interrupt handler uses non-blocking try semantics on the
controller access token.  If the token is held by any context the handler
changes nothing and performs no stack call; if the token is free it runs
the stack's processing entry point exactly once with the token held by the
interrupt context and releases it afterwards; every recorded stack call
happens with the token held by the caller; and after a holder releases the
token, the next periodic attempt succeeds and performs the skipped work. -/
theorem usb_irq_try_lock_spec (s : USBState) (c : Nat) :
    (∀ d, s.mutexOwner = some d →
      usb_irq s c = { final := s, taskCallOwners := [] }) ∧
    (s.mutexOwner = none →
      usb_irq s c =
        { final := { mutexOwner := none, tudTaskRuns := s.tudTaskRuns + 1 },
          taskCallOwners := [some c] }) ∧
    (∀ o ∈ (usb_irq s c).taskCallOwners, o = some c) ∧
    ((usb_irq (mutex_exit s) c).taskCallOwners = [some c] ∧
      (usb_irq (mutex_exit s) c).final.tudTaskRuns = s.tudTaskRuns + 1 ∧
      (usb_irq (mutex_exit s) c).final.mutexOwner = none) := by
  obtain ⟨o, n⟩ := s
  cases o <;>
    simp [usb_irq, mutex_try_enter, mutex_exit, tud_task]

/-- Witness for `usb_irq_try_lock_spec`: a held token makes the firing a
no-op; a free token lets the firing drive the stack once. -/
theorem usb_irq_try_lock_spec_witness :
    usb_irq ⟨some 1, 5⟩ 0 = { final := ⟨some 1, 5⟩, taskCallOwners := [] } ∧
    usb_irq ⟨none, 5⟩ 0 =
      { final := ⟨none, 6⟩, taskCallOwners := [some 0] } :=
  ⟨(usb_irq_try_lock_spec ⟨some 1, 5⟩ 0).1 1 rfl,
   (usb_irq_try_lock_spec ⟨none, 5⟩ 0).2.1 rfl⟩

theorem subscribe_at_capacity {F : Type} (s : CallbackState F) (g : F)
    (h : 2 ≤ s.count) :
    __USBSubscribeHIDSetReportCallback s g = s := by
  unfold __USBSubscribeHIDSetReportCallback
  rw [if_neg (by omega)]

theorem foldl_subscribe_at_capacity {F : Type} (fs : List F) :
    ∀ s : CallbackState F, 2 ≤ s.count →
      fs.foldl __USBSubscribeHIDSetReportCallback s = s := by
  induction fs with
  | nil => intro s _; rfl
  | cons g rest ih =>
    intro s h
    simp only [List.foldl_cons, subscribe_at_capacity s g h]
    exact ih s h

/-- C9: registering a sequence of handlers stores the first two in order
(slot i holds the i-th handler) and counts at most 2; any registration
once two handlers are stored is silently dropped, leaving slots and count
unchanged; a report-set event invokes exactly the registered handlers, in
registration order, each receiving the instance, report id, report type,
buffer and size unchanged. -/
theorem callback_router_spec {F : Type} (fs : List F) (g : F)
    (args : SetReportArgs) :
    (registerAll fs).count = min fs.length 2 ∧
    (registerAll fs).slot0 = fs.get? 0 ∧
    (registerAll fs).slot1 = fs.get? 1 ∧
    (2 ≤ fs.length →
      __USBSubscribeHIDSetReportCallback (registerAll fs) g = registerAll fs) ∧
    tud_hid_set_report_cb (registerAll fs) args =
      (fs.take 2).map (fun fn => (fn, args)) := by
  match fs with
  | [] =>
    refine ⟨rfl, rfl, rfl, ?_, rfl⟩
    intro h
    exact absurd h (by simp)
  | [a] =>
    refine ⟨rfl, rfl, rfl, ?_, rfl⟩
    intro h
    exact absurd h (by simp)
  | a :: b :: rest =>
    have hs2 : registerAll (a :: b :: rest) =
        ({ slot0 := some a, slot1 := some b, count := 2 } : CallbackState F) := by
      unfold registerAll
      simp only [List.foldl_cons]
      have h1 : __USBSubscribeHIDSetReportCallback (initialCallbackState F) a =
          { slot0 := some a, slot1 := none, count := 1 } := rfl
      rw [h1]
      have h2 : __USBSubscribeHIDSetReportCallback
          ({ slot0 := some a, slot1 := none, count := 1 } : CallbackState F) b =
          { slot0 := some a, slot1 := some b, count := 2 } := rfl
      rw [h2]
      exact foldl_subscribe_at_capacity rest _ (Nat.le_refl 2)
    rw [hs2]
    refine ⟨by simp, rfl, rfl, ?_, rfl⟩
    intro _
    exact subscribe_at_capacity _ g (Nat.le_refl 2)

/-- Witness for `callback_router_spec`: a third registration is dropped and
dispatch reaches the first two handlers in order. -/
theorem callback_router_spec_witness :
    __USBSubscribeHIDSetReportCallback (registerAll [10, 20, 30]) 40 =
      registerAll [10, 20, 30] ∧
    tud_hid_set_report_cb (registerAll [10, 20, 30])
        ⟨1, 2, 3, [9], 1⟩ = [(10, ⟨1, 2, 3, [9], 1⟩), (20, ⟨1, 2, 3, [9], 1⟩)] :=
  ⟨(callback_router_spec [10, 20, 30] 40 ⟨1, 2, 3, [9], 1⟩).2.2.2.1 (by decide),
   (callback_router_spec [10, 20, 30] 40 ⟨1, 2, 3, [9], 1⟩).2.2.2.2⟩

/-- C8: string lookup at index 0 returns the single 16-bit language code
0x0409 behind a header word whose low byte 2·1+2 encodes payload length 1;
any index at or past the 5-entry table returns null; and every valid
non-zero index returns the table entry truncated to at most
`DESC_STR_MAX - 1 = 19` characters, behind the matching header word. -/
theorem string_cb_spec (attrs : StringAttrs) (uid : List Nat) :
    tud_descriptor_string_cb attrs uid 0 = some [0x0304, 0x0409] ∧
    (∀ i, 5 ≤ i → tud_descriptor_string_cb attrs uid i = none) ∧
    (∀ i, 1 ≤ i → i < 5 →
      tud_descriptor_string_cb attrs uid i =
        some (((TUSB_DESC_STRING <<< 8) |||
          (2 * ((usbd_desc_str attrs uid i).take (DESC_STR_MAX - 1)).length + 2))
          :: (usbd_desc_str attrs uid i).take (DESC_STR_MAX - 1)) ∧
      ((usbd_desc_str attrs uid i).take (DESC_STR_MAX - 1)).length =
        min (usbd_desc_str attrs uid i).length 19) := by
  refine ⟨?_, ?_, ?_⟩
  · rfl
  · intro i hi
    have h0 : i ≠ 0 := by omega
    simp [tud_descriptor_string_cb, h0, hi]
  · intro i h1 h5
    have h0 : i ≠ 0 := by omega
    have hlt : ¬ 5 ≤ i := by omega
    refine ⟨by simp [tud_descriptor_string_cb, h0, hlt], ?_⟩
    simp [DESC_STR_MAX, List.length_take, Nat.min_comm]

/-- Witness for `string_cb_spec`: index 7 is out of table range; index 2
returns the (empty) product string behind its header. -/
theorem string_cb_spec_witness :
    tud_descriptor_string_cb ⟨[], [], []⟩ [] 7 = none ∧
    tud_descriptor_string_cb ⟨[], [], []⟩ [] 2 = some [0x0302] :=
  ⟨(string_cb_spec ⟨[], [], []⟩ []).2.1 7 (by omega),
   ((string_cb_spec ⟨[], [], []⟩ []).2.2 2 (by omega) (by omega)).1⟩

/-- Flags with only the raw-HID-2 role enabled. -/
def rawOnlyFlags : RoleFlags :=
  { serial := false, keyboard := false, mouse := false, joystick := false,
    consumerControl := false, massStorage := false, rawHID2 := true }

/-- C3 counterexample: when the raw-HID-2 build's `malloc` fails, the
source (which has no null check on this allocation) still sets
`__hid2_report_len` to the template size and executes
`memcpy(__hid2_report, ...)` with the null pointer, so the length field is
not left at 0 and a write through the buffer pointer is performed. -/
theorem alloc_failure_claim_counterexample :
    ¬ ((__SetupDescHID2Report rawOnlyFlags (List.replicate 33 0) false).len = 0 ∧
       (__SetupDescHID2Report rawOnlyFlags (List.replicate 33 0) false).nullWrite
         = false) := by
  decide

/-- C3 (amended): on allocation failure the shared simple-HID report build
and the configuration descriptor build leave the pointer null, the length
at 0 and write nothing, so callers can detect the failure; the raw-HID-2
build leaves the pointer null but sets its length field to the template
size and performs the `memcpy` through the null pointer (no null check in
the source); when the raw role is disabled its build is the benign
null/zero state. -/
theorem alloc_failure_spec (f : RoleFlags) (t : HIDTemplates)
    (tmpl : List Nat) (ct : CfgTemplates) (hl h2l : Nat) :
    __SetupDescHIDReport f t false = (none, 0) ∧
    __SetupUSBDescriptor none f ct hl h2l false = none ∧
    (f.rawHID2 = true →
      (__SetupDescHID2Report f tmpl false).buf = none ∧
      (__SetupDescHID2Report f tmpl false).len = tmpl.length ∧
      (__SetupDescHID2Report f tmpl false).nullWrite = true) ∧
    (f.rawHID2 = false →
      __SetupDescHID2Report f tmpl false =
        { buf := none, len := 0, nullWrite := false }) := by
  refine ⟨?_, rfl, ?_, ?_⟩
  · unfold __SetupDescHIDReport
    simp
  · intro h
    simp [__SetupDescHID2Report, h]
  · intro h
    simp [__SetupDescHID2Report, h]

/-- Witness for `alloc_failure_spec` at raw-HID-2-only flags. -/
theorem alloc_failure_spec_witness :
    (__SetupDescHID2Report rawOnlyFlags [1, 2, 3] false).len = 3 ∧
    (__SetupDescHID2Report rawOnlyFlags [1, 2, 3] false).nullWrite = true :=
  ⟨((alloc_failure_spec rawOnlyFlags ⟨fun _ => [], fun _ => [], fun _ => [],
      fun _ => []⟩ [1, 2, 3]
      ⟨fun _ _ => [], fun _ => [], fun _ _ => [], fun _ => [], fun _ _ => []⟩
      0 0).2.2.1 rfl).2.1,
   ((alloc_failure_spec rawOnlyFlags ⟨fun _ => [], fun _ => [], fun _ => [],
      fun _ => []⟩ [1, 2, 3]
      ⟨fun _ _ => [], fun _ => [], fun _ _ => [], fun _ => [], fun _ _ => []⟩
      0 0).2.2.1 rfl).2.2⟩

/-- Stated from the claim, for comparison with the source build: the
expected shared HID report buffer — the concatenation of the enabled
simple-HID roles' templates in precedence order, each stamped with the
report ID its accessor returns (1 plus the count of enabled preceding
roles). -/
def specHIDReportConcat (f : RoleFlags) (t : HIDTemplates) : List Nat :=
  (if f.keyboard then t.keyboard (__USBGetKeyboardReportID f) else []) ++
  (if f.mouse then t.mouse (__USBGetMouseReportID f) else []) ++
  (if f.joystick then t.joystick (__USBGetJoystickReportID f) else []) ++
  (if f.consumerControl then
    t.consumerControl (__USBGetConsumerControlReportID f) else [])

/-- Stated from the claim, for comparison with the source build: the
expected stored length — the exact sum of the enabled templates' fixed
sizes. -/
def specHIDReportLen (f : RoleFlags) (t : HIDTemplates) : Nat :=
  (if f.keyboard then (t.keyboard 1).length else 0) +
  (if f.mouse then (t.mouse 1).length else 0) +
  (if f.joystick then (t.joystick 1).length else 0) +
  (if f.consumerControl then (t.consumerControl 1).length else 0)

/-- The report IDs the copy loop stamps: entry `i` of `report_types` gets
`report_id = i + 1`. -/
def assignedIds : List ReportType → Nat → List Nat
  | [], _ => []
  | _ :: rest, i => (i + 1) :: assignedIds rest (i + 1)

theorem assignedIds_range :
    ∀ (rts : List ReportType) (i : Nat),
      assignedIds rts i = List.range' (i + 1) rts.length := by
  intro rts
  induction rts with
  | nil => intro i; rfl
  | cons rt rest ih =>
    intro i
    simp [assignedIds, List.range'_succ, ih (i + 1)]

theorem hidCopySegs_flatten_length (t : HIDTemplates)
    (h : ∀ (rt : ReportType) (i : Nat),
      (templateFor t rt i).length = (templateFor t rt 1).length) :
    ∀ (rts : List ReportType) (i : Nat),
      ((hidCopySegs t rts i).flatten).length = hidReportSize t rts := by
  intro rts
  induction rts with
  | nil => intro i; rfl
  | cons rt rest ih =>
    intro i
    simp only [hidCopySegs, List.flatten_cons, List.length_append,
      hidReportSize, List.map_cons, List.sum_cons]
    rw [h rt (i + 1), ih (i + 1)]
    rfl

theorem setupDescHIDReport_nonempty (f : RoleFlags) (t : HIDTemplates)
    (h : ∀ (rt : ReportType) (i : Nat),
      (templateFor t rt i).length = (templateFor t rt 1).length)
    (hne : report_types f ≠ []) :
    __SetupDescHIDReport f t true =
      (some ((hidCopySegs t (report_types f) 0).flatten),
       hidReportSize t (report_types f)) := by
  have hlen : ¬ (report_types f).length = 0 := by simpa using hne
  have hsz : hidReportSize t (report_types f) =
      ((hidCopySegs t (report_types f) 0).flatten).length :=
    (hidCopySegs_flatten_length t h _ 0).symm
  unfold __SetupDescHIDReport
  simp only [hlen, if_false, if_true]
  rw [hsz, writeSeq_tiles]

theorem hid_flatten_eq_spec (f : RoleFlags) (t : HIDTemplates) :
    (hidCopySegs t (report_types f) 0).flatten = specHIDReportConcat f t := by
  obtain ⟨s, k, m, j, cc, ms, r2⟩ := f
  cases k <;> cases m <;> cases j <;> cases cc <;>
    simp [report_types, hidCopySegs, templateFor, specHIDReportConcat,
      __USBGetKeyboardReportID, __USBGetMouseReportID,
      __USBGetJoystickReportID, __USBGetConsumerControlReportID]

theorem hid_size_eq_spec (f : RoleFlags) (t : HIDTemplates) :
    hidReportSize t (report_types f) = specHIDReportLen f t := by
  obtain ⟨s, k, m, j, cc, ms, r2⟩ := f
  cases k <;> cases m <;> cases j <;> cases cc <;>
    simp [report_types, hidReportSize, templateFor, specHIDReportLen,
      Nat.add_assoc]

/-- C2: with every allocation succeeding, the shared HID report build
returns the null/zero pair when no simple-HID role is enabled, and
otherwise returns exactly the concatenation of the enabled roles'
templates in precedence order, the i-th enabled role stamped with report
ID i+1 (the accessor values), with the stored length equal to the exact
sum of the enabled templates' fixed sizes; the stamped IDs are exactly
1..k for k enabled simple-HID roles. -/
theorem setupDescHIDReport_spec (f : RoleFlags) (t : HIDTemplates)
    (h : ∀ (rt : ReportType) (i : Nat),
      (templateFor t rt i).length = (templateFor t rt 1).length) :
    (report_types f = [] → __SetupDescHIDReport f t true = (none, 0)) ∧
    (report_types f ≠ [] →
      __SetupDescHIDReport f t true =
        (some (specHIDReportConcat f t), specHIDReportLen f t) ∧
      (specHIDReportConcat f t).length = specHIDReportLen f t) ∧
    assignedIds (report_types f) 0 = List.range' 1 (report_types f).length ∧
    (report_types f).length =
      enabledCount [f.keyboard, f.mouse, f.joystick, f.consumerControl] := by
  refine ⟨?_, ?_, assignedIds_range _ 0, ?_⟩
  · intro hemp
    have hlen : (report_types f).length = 0 := by simp [hemp]
    unfold __SetupDescHIDReport
    simp [hlen]
  · intro hne
    constructor
    · rw [setupDescHIDReport_nonempty f t h hne, hid_flatten_eq_spec,
        hid_size_eq_spec]
    · rw [← hid_flatten_eq_spec, ← hid_size_eq_spec,
        hidCopySegs_flatten_length t h _ 0]
  · obtain ⟨s, k, m, j, cc, ms, r2⟩ := f
    cases k <;> cases m <;> cases j <;> cases cc <;>
      simp [report_types, enabledCount]

/-- Concrete flags for the C2 witness: keyboard, mouse and consumer
control enabled (report IDs 1, 2, 3). -/
def hidWitnessFlags : RoleFlags :=
  { serial := false, keyboard := true, mouse := true, joystick := false,
    consumerControl := true, massStorage := false, rawHID2 := false }

/-- Concrete fixed-size templates for the C2 witness; each length is
independent of the stamped report ID, as for the real macros. -/
def hidWitnessTemplates : HIDTemplates :=
  { keyboard := fun i => [0x85, i, 11]
    mouse := fun i => [0x85, i]
    joystick := fun i => [5, 0x85, i, 6]
    consumerControl := fun i => [0x85, i, 12, 13] }

/-- Witness for `setupDescHIDReport_spec` at concrete flags and
templates. -/
theorem setupDescHIDReport_spec_witness :
    __SetupDescHIDReport hidWitnessFlags hidWitnessTemplates true =
      (some (specHIDReportConcat hidWitnessFlags hidWitnessTemplates),
       specHIDReportLen hidWitnessFlags hidWitnessTemplates) :=
  ((setupDescHIDReport_spec hidWitnessFlags hidWitnessTemplates
    (fun rt _ => by cases rt <;> rfl)).2.1 (by decide)).1

theorem flatten_opt (c : Bool) (x : List Nat) :
    (if c then [x] else ([] : List (List Nat))).flatten = if c then x else [] := by
  cases c <;> simp

/-- Stated from the claim, for comparison with the source build: the
expected configuration buffer — the config header (carrying the interface
count and total length) followed immediately by each enabled group's
sub-descriptor in precedence order, with no gaps. -/
def cfgBufferSpec (f : RoleFlags) (ct : CfgTemplates) (hl h2l : Nat) :
    List Nat :=
  ct.cfgHeader (computeItfLayout f).interface_count (usbd_desc_len f) ++
  (if f.serial then ct.cdc (computeItfLayout f).itf_cdc else []) ++
  (if hasHID f then ct.hid (computeItfLayout f).itf_hid hl else []) ++
  (if f.massStorage then ct.msd (computeItfLayout f).itf_msd else []) ++
  (if f.rawHID2 then ct.hid2 (computeItfLayout f).itf_hid2 h2l else [])

theorem cfgSegs_flatten (f : RoleFlags) (ct : CfgTemplates) (hl h2l : Nat) :
    (cfgSegs f ct hl h2l).flatten = cfgBufferSpec f ct hl h2l := by
  simp [cfgSegs, cfgBufferSpec, flatten_opt, List.append_assoc]

theorem cfgBufferSpec_length (f : RoleFlags) (ct : CfgTemplates)
    (hl h2l : Nat)
    (hhdr : ∀ n l, (ct.cfgHeader n l).length = TUD_CONFIG_DESC_LEN)
    (hcdc : ∀ n, (ct.cdc n).length = TUD_CDC_DESC_LEN)
    (hhid : ∀ n l, (ct.hid n l).length = TUD_HID_DESC_LEN)
    (hmsd : ∀ n, (ct.msd n).length = TUD_MSC_DESC_LEN)
    (hhid2 : ∀ n l, (ct.hid2 n l).length = TUD_HID_INOUT_DESC_LEN) :
    (cfgBufferSpec f ct hl h2l).length = usbd_desc_len f := by
  simp only [cfgBufferSpec, List.length_append, apply_ite List.length,
    List.length_nil, hhdr, hcdc, hhid, hmsd, hhid2, usbd_desc_len]

theorem setupUSBDescriptor_builds (f : RoleFlags) (ct : CfgTemplates)
    (hl h2l : Nat)
    (hhdr : ∀ n l, (ct.cfgHeader n l).length = TUD_CONFIG_DESC_LEN)
    (hcdc : ∀ n, (ct.cdc n).length = TUD_CDC_DESC_LEN)
    (hhid : ∀ n l, (ct.hid n l).length = TUD_HID_DESC_LEN)
    (hmsd : ∀ n, (ct.msd n).length = TUD_MSC_DESC_LEN)
    (hhid2 : ∀ n l, (ct.hid2 n l).length = TUD_HID_INOUT_DESC_LEN) :
    __SetupUSBDescriptor none f ct hl h2l true =
      some (cfgBufferSpec f ct hl h2l) := by
  have hlen : usbd_desc_len f = ((cfgSegs f ct hl h2l).flatten).length := by
    rw [cfgSegs_flatten]
    exact (cfgBufferSpec_length f ct hl h2l hhdr hcdc hhid hmsd hhid2).symm
  unfold __SetupUSBDescriptor
  simp only [if_true]
  rw [hlen, writeSeq_tiles, cfgSegs_flatten]

/-- C1: with the allocation succeeding and the pointer initially null, the
configuration descriptor build produces exactly the config header followed
by each enabled group's fixed-size sub-descriptor in precedence order
serial, HID, mass-storage, raw-HID-2 at increasing offsets with no gaps
(the buffer is zero-filled and then tiled completely); the total length is
the fixed header size plus the sum of the enabled groups' fixed sizes;
interface numbers are assigned in that precedence order, each enabled
group starting right after the widths of the enabled groups before it
(serial takes 2 contiguous numbers, the others 1), so they are strictly
increasing and contiguous from 0, and the interface count is their total
width; with zero groups enabled the buffer is exactly the bare config
header built with interface count 0 and total length equal to the header
size. -/
theorem setupUSBDescriptor_spec (f : RoleFlags) (ct : CfgTemplates)
    (hl h2l : Nat)
    (hhdr : ∀ n l, (ct.cfgHeader n l).length = TUD_CONFIG_DESC_LEN)
    (hcdc : ∀ n, (ct.cdc n).length = TUD_CDC_DESC_LEN)
    (hhid : ∀ n l, (ct.hid n l).length = TUD_HID_DESC_LEN)
    (hmsd : ∀ n, (ct.msd n).length = TUD_MSC_DESC_LEN)
    (hhid2 : ∀ n l, (ct.hid2 n l).length = TUD_HID_INOUT_DESC_LEN) :
    __SetupUSBDescriptor none f ct hl h2l true =
      some (cfgBufferSpec f ct hl h2l) ∧
    (cfgBufferSpec f ct hl h2l).length =
      TUD_CONFIG_DESC_LEN + (if f.serial then TUD_CDC_DESC_LEN else 0) +
      (if hasHID f then TUD_HID_DESC_LEN else 0) +
      (if f.massStorage then TUD_MSC_DESC_LEN else 0) +
      (if f.rawHID2 then TUD_HID_INOUT_DESC_LEN else 0) ∧
    (f.serial = true → (computeItfLayout f).itf_cdc = 0) ∧
    (hasHID f = true →
      (computeItfLayout f).itf_hid = (if f.serial then 2 else 0)) ∧
    (f.massStorage = true →
      (computeItfLayout f).itf_msd =
        (if f.serial then 2 else 0) + (if hasHID f then 1 else 0)) ∧
    (f.rawHID2 = true →
      (computeItfLayout f).itf_hid2 =
        (if f.serial then 2 else 0) + (if hasHID f then 1 else 0) +
        (if f.massStorage then 1 else 0)) ∧
    (computeItfLayout f).interface_count =
      (if f.serial then 2 else 0) + (if hasHID f then 1 else 0) +
      (if f.massStorage then 1 else 0) + (if f.rawHID2 then 1 else 0) ∧
    (f.serial = false → hasHID f = false → f.massStorage = false →
      f.rawHID2 = false →
      cfgBufferSpec f ct hl h2l = ct.cfgHeader 0 TUD_CONFIG_DESC_LEN) := by
  refine ⟨setupUSBDescriptor_builds f ct hl h2l hhdr hcdc hhid hmsd hhid2,
    by rw [cfgBufferSpec_length f ct hl h2l hhdr hcdc hhid hmsd hhid2]; rfl,
    ?_, ?_, ?_, ?_, ?_, ?_⟩
  · intro h; simp [computeItfLayout, h]
  · intro h
    obtain ⟨s, k, m, j, cc, ms, r2⟩ := f
    cases s <;> simp_all [computeItfLayout]
  · intro h
    obtain ⟨s, k, m, j, cc, ms, r2⟩ := f
    cases s <;> cases k <;> cases m <;> cases j <;>
      simp_all [computeItfLayout, hasHID]
  · intro h
    obtain ⟨s, k, m, j, cc, ms, r2⟩ := f
    cases s <;> cases k <;> cases m <;> cases j <;> cases ms <;>
      simp_all [computeItfLayout, hasHID]
  · obtain ⟨s, k, m, j, cc, ms, r2⟩ := f
    cases s <;> cases k <;> cases m <;> cases j <;> cases ms <;> cases r2 <;>
      simp [computeItfLayout, hasHID]
  · intro hs hh hm hr
    simp [cfgBufferSpec, computeItfLayout, usbd_desc_len, hs, hh, hm, hr]

/-- Concrete fixed-length templates for the C1/C7 witnesses, with the
extents the source's local arrays have. -/
def cfgWitnessTemplates : CfgTemplates :=
  { cfgHeader := fun n l => [9, 2, l % 256, l / 256, n, 1, 0, 0xA0, 50]
    cdc := fun n => n :: List.replicate 65 1
    hid := fun n l => n :: l % 256 :: List.replicate 23 2
    msd := fun n => n :: List.replicate 22 3
    hid2 := fun n l => n :: l % 256 :: List.replicate 30 4 }

/-- Witness for `setupUSBDescriptor_spec` with serial, keyboard,
mass-storage and raw-HID-2 enabled. -/
theorem setupUSBDescriptor_spec_witness :
    __SetupUSBDescriptor none
        ⟨true, true, false, false, false, true, true⟩
        cfgWitnessTemplates 100 34 true =
      some (cfgBufferSpec ⟨true, true, false, false, false, true, true⟩
        cfgWitnessTemplates 100 34) :=
  (setupUSBDescriptor_spec ⟨true, true, false, false, false, true, true⟩
    cfgWitnessTemplates 100 34
    (fun _ _ => rfl) (fun _ => by simp [cfgWitnessTemplates, TUD_CDC_DESC_LEN])
    (fun _ _ => by simp [cfgWitnessTemplates, TUD_HID_DESC_LEN])
    (fun _ => by simp [cfgWitnessTemplates, TUD_MSC_DESC_LEN])
    (fun _ _ => by simp [cfgWitnessTemplates, TUD_HID_INOUT_DESC_LEN])).1

/-- C7: the configuration descriptor build is idempotent by presence — if
the buffer pointer is already non-null the call is a no-op returning the
pointer and contents unchanged, and two successive calls always produce
the same buffer state as one call. -/
theorem setupUSBDescriptor_idempotent (prev : Option (List Nat))
    (f : RoleFlags) (ct : CfgTemplates) (hl h2l : Nat) (allocOk : Bool) :
    (prev ≠ none → __SetupUSBDescriptor prev f ct hl h2l allocOk = prev) ∧
    __SetupUSBDescriptor (__SetupUSBDescriptor prev f ct hl h2l allocOk)
        f ct hl h2l allocOk =
      __SetupUSBDescriptor prev f ct hl h2l allocOk := by
  cases prev with
  | some b => exact ⟨fun _ => rfl, rfl⟩
  | none =>
    refine ⟨fun hc => absurd rfl hc, ?_⟩
    cases allocOk with
    | true => rfl
    | false => rfl

/-- Witness for `setupUSBDescriptor_idempotent`: a pre-existing buffer is
returned unchanged. -/
theorem setupUSBDescriptor_idempotent_witness :
    __SetupUSBDescriptor (some [1, 2, 3]) rawOnlyFlags cfgWitnessTemplates
        0 0 true = some [1, 2, 3] :=
  (setupUSBDescriptor_idempotent (some [1, 2, 3]) rawOnlyFlags
    cfgWitnessTemplates 0 0 true).1 (by simp)

end RP2040USB
